import Mathlib

/-!
Shallow embedding of the prediction-reconciliation pipeline of
`src/frontend/app.py` (a Streamlit frontend that uploads a tabular file,
posts it to a prediction service, reconciles returned predictions with the
loaded table, and builds a CSV export).

Conventions of the embedding:
* Parsed JSON bodies (`resp.json()`) are modeled by the inductive `Json`;
  a Python `dict.get` is `Json.get`, Python truthiness is `Json.truthy`.
* Python string slicing `s[:n]` is `strTake`, `str.endswith` is `pyEndsWith`.
* `st.error(...)` calls are recorded structurally: each constructor of
  `StError` is one `st.error` call site together with its format arguments.
* External effects that cannot be embedded (the wall clock, the pandas
  parsers, the HTTP transport) become explicit parameters: the elapsed-time
  fallback `round(time.time() - start, 3)` is a `Rat` argument, the parsers
  are `List Nat → Except String Table` arguments (`.error` models a raised
  exception carrying its message), and one HTTP exchange is an
  `ExchangeOutcome`.
* Code that would raise an uncaught Python exception is modeled with
  `Except String`; `.error` marks a raise that propagates out of the
  embedded fragment.
-/

namespace App

/-- Parsed JSON values, as returned by `resp.json()`. A JSON `null` parses to
Python `None`; we keep it as an explicit constructor. -/
inductive Json where
  | null
  | bool (b : Bool)
  | num (q : Rat)
  | str (s : String)
  | arr (elems : List Json)
  | obj (fields : List (String × Json))
deriving Repr

/-- First binding of a key in a dict, as Python dict lookup (parsed JSON
objects have unique keys; first match is the lookup). -/
def lookupField : List (String × Json) → String → Option Json
  | [], _ => none
  | (k, v) :: rest, key => if k = key then some v else lookupField rest key

/-- Python `d.get(key)`: `none` when `d` is not a dict or the key is absent.
The source always guards `.get` with `isinstance(d, dict)` where it matters;
call sites on a possibly-non-dict value are noted individually. -/
def Json.get : Json → String → Option Json
  | .obj fields, key => lookupField fields key
  | _, _ => none

/-- Python `isinstance(x, dict)` on a parsed JSON value. -/
def Json.isObj : Json → Bool
  | .obj _ => true
  | _ => false

/-- Python truthiness of a parsed JSON value (`if data ...`). -/
def Json.truthy : Json → Bool
  | .null => false
  | .bool b => b
  | .num q => q != 0
  | .str s => s != ""
  | .arr l => !l.isEmpty
  | .obj l => !l.isEmpty

/-- Python `x or y` where `x` is a dict-lookup result (`None` or a value):
yields `x`'s value when it is truthy, else `y`. -/
def pyOrJson : Option Json → Json → Json
  | some v, y => if v.truthy then v else y
  | none, y => y

/-- Python string slice `s[:n]` (by characters, as Python slices `str`). -/
def strTake (s : String) (n : Nat) : String := ⟨s.data.take n⟩

/-- Python `s.endswith(suffix)`. -/
def pyEndsWith (s suffix : String) : Bool := suffix.data.isSuffixOf s.data

/-- Python `s.startswith(pre)`. -/
def pyStartsWith (s pre : String) : Bool := pre.data.isPrefixOf s.data

/-- Python `s.lower()` (ASCII case folding suffices for the filename
suffixes compared here). -/
def pyLower (s : String) : String := ⟨s.data.map Char.toLower⟩

/-- One `st.error(...)` emission, recorded as the call site plus its format
arguments (the f-string interpolants). -/
inductive StError where
  /-- `st.error("Unsupported file format. Please upload a CSV or Excel file.")` -/
  | unsupportedFormat
  /-- `st.error(f"Error loading file: \x7be\x7d")` -/
  | loadError (msg : String)
  /-- `st.error(f"Unexpected response from API (status \x7b..\x7d): \x7btext[:400]\x7d")` -/
  | unexpectedResponse (statusCode : Nat) (excerpt : String)
  /-- `st.error(f"API Error \x7b..\x7d: \x7bdetail or data\x7d")` -/
  | apiError (statusCode : Nat) (shown : Json)
  /-- `st.error(f"Network error while calling API: \x7be\x7d")` -/
  | networkError (msg : String)
  /-- `st.error(f"Unexpected error: \x7be\x7d")` -/
  | unexpectedError (msg : String)
  /-- `st.error("No file loaded.")` -/
  | noFileLoaded
deriving Repr

/-- One HTTP response as observed by `send_to_api`: the status code, the
`content-type` header (defaulted to `""`), the raw text body, and the result
of `resp.json()` (`.error msg` models the decode raising with message `msg`). -/
structure HttpResponse where
  statusCode : Nat
  contentType : String
  text : String
  jsonBody : Except String Json
deriving Repr

/-- Outcome of the single `requests.post` exchange: either the transport
layer raised a `requests.exceptions.RequestException` (with its message), or
a response came back. -/
inductive ExchangeOutcome where
  | transportError (msg : String)
  | response (r : HttpResponse)
deriving Repr

/-- What `send_to_api` returns and what it shows: the `dict | None` return
value, plus the `st.error` messages it emitted. -/
structure SendResult where
  value : Option Json
  errors : List StError
deriving Repr

/-- Embedding of `send_to_api` (src/frontend/app.py lines 44-70). The decode
failure of `resp.json()` is a `requests.exceptions.JSONDecodeError`, a
`RequestException` (requests >= 2.27), so the first handler catches it and
emits the network-error message. -/
def send_to_api (o : ExchangeOutcome) : SendResult :=
  match o with
  | .transportError msg => ⟨none, [.networkError msg]⟩
  | .response r =>
    if pyStartsWith r.contentType "application/json" then
      match r.jsonBody with
      | .error msg => ⟨none, [.networkError msg]⟩
      | .ok data =>
        if r.statusCode == 200 then
          ⟨some data, []⟩
        else
          -- detail = data.get("detail") if isinstance(data, dict) else None
          -- st.error(f"API Error ...: \x7bdetail or data\x7d")
          ⟨none, [.apiError r.statusCode (pyOrJson (data.get "detail") data)]⟩
    else
      ⟨none, [.unexpectedResponse r.statusCode (strTake r.text 400)]⟩

/-- A pandas `DataFrame`, modeled as its column names in order and its rows
in order, each row a list of cells (cells are kept as their string
rendering; the pipeline never inspects cell contents). -/
structure Table where
  cols : List String
  rows : List (List String)
deriving Repr, DecidableEq

/-- Python `len(df)`: the row count. -/
def Table.len (t : Table) : Nat := t.rows.length

/-- pandas `df.head(n)`: the first `n` rows, all columns. -/
def Table.head (t : Table) (n : Nat) : Table := ⟨t.cols, t.rows.take n⟩

/-- Embedding of `load_df_from_bytes` (src/frontend/app.py lines 28-41).
The pandas parsers are parameters: `readCsv` models `pd.read_csv`,
`readExcel` models `pd.read_excel`, each returning `.error msg` when the
parser raises an exception with message `msg` (caught by the
`except Exception` handler). Returns the `DataFrame | None` value together
with the emitted `st.error` messages. -/
def load_df_from_bytes (readCsv readExcel : List Nat → Except String Table)
    (file_bytes : List Nat) (filename : String) : Option Table × List StError :=
  if pyEndsWith (pyLower filename) ".csv" then
    match readCsv file_bytes with
    | .ok t => (some t, [])
    | .error e => (none, [.loadError e])
  else if pyEndsWith (pyLower filename) ".xlsx" || pyEndsWith (pyLower filename) ".xls" then
    match readExcel file_bytes with
    | .ok t => (some t, [])
    | .error e => (none, [.loadError e])
  else
    (none, [.unsupportedFormat])

/-- The `st.session_state.results` dict built on success
(src/frontend/app.py lines 205-214). -/
structure Results where
  predictions : List Json
  processing_time : Json
  num_predictions : Json
  message : Json
deriving Repr

/-- The guard on lines 190-194:
`data and isinstance(data, dict) and data.get("status") == "success"`.
A Python `==` against the string literal is `False` for any non-string
value, so only a `str "success"` status passes. -/
def isSuccessData : Option Json → Bool
  | some d =>
    d.truthy && d.isObj &&
      (match d.get "status" with
       | some (.str s) => s == "success"
       | _ => false)
  | none => false

/-- Embedding of the reconciliation fragment of `main`
(src/frontend/app.py lines 190-216): from the `send_to_api` return value
`data`, the loaded table, and the elapsed-time fallback
`round(time.time() - start, 3)` (passed here as `elapsed`), compute the new
`st.session_state.results` together with whether the count-mismatch
`st.warning` fired. `.error` marks shapes on which the Python fragment
raises uncaught: `data["data"]` being a non-dict makes `d.get` raise
`AttributeError`; a non-list `predictions` value is also routed there
(Python `len`/slicing would accept `str`/`dict` values, but no claim and no
concrete input below reaches that shape). -/
def reconcile (data : Option Json) (df : Table) (elapsed : Rat) :
    Except String (Option Results × Bool) :=
  match data with
  | some d =>
    if isSuccessData (some d) then
      -- d = data.get("data", {})
      let dataField : Json := match d.get "data" with
        | some v => v
        | none => .obj []
      match dataField with
      | .obj _ =>
        -- preds = d.get("predictions", [])
        let predsField : Json := match dataField.get "predictions" with
          | some v => v
          | none => .arr []
        match predsField with
        | .arr preds =>
          -- proc = d.get("processing_time_seconds", None); JSON null is Python None
          let proc : Option Json := match dataField.get "processing_time_seconds" with
            | some .null => none
            | v => v
          let warned := preds.length != df.len
          let n := min preds.length df.len
          .ok (some {
            predictions := preds.take n
            processing_time := match proc with
              | some v => v
              | none => .num elapsed
            num_predictions := match dataField.get "num_predictions" with
              | some v => v
              | none => .num (n : Rat)
            message := match d.get "message" with
              | some v => v
              | none => .str "Predictions generated" }, warned)
        | _ => .error "TypeError: predictions is not a list"
      | _ => .error "AttributeError: data field is not a dict"
    else
      .ok (none, false)
  | none => .ok (none, false)

/-- The prediction-relevant slice of `st.session_state`
(src/frontend/app.py lines 75-82): the raw uploaded bytes, the preview
`DataFrame`, and the parsed results. (The `uploaded` widget handle is
omitted: it is only compared by identity in the upload handler.) -/
structure Session where
  file_bytes : Option (List Nat)
  df : Option Table
  results : Option Results
deriving Repr

/-- Python truthiness of `st.session_state.file_bytes`
(`if not st.session_state.file_bytes`): `None` and `b""` are falsy. -/
def bytesTruthy : Option (List Nat) → Bool
  | some bs => !bs.isEmpty
  | none => false

/-- Everything a button click changed or showed. -/
structure PredictEffects where
  session : Session
  errors : List StError
  warned : Bool
deriving Repr

/-- Embedding of the predict-button handler (src/frontend/app.py lines
175-216): check `file_bytes`, call `send_to_api`, then run the
reconciliation fragment, writing `st.session_state.results`. The button is
rendered only under `st.session_state.df is not None` (line 132); when
`df` is `None` anyway and the response has the success shape, the Python
`len(st.session_state.df)` would raise, which the `.error` branch records. -/
def predictAction (s : Session) (o : ExchangeOutcome) (elapsed : Rat) :
    Except String PredictEffects :=
  if !bytesTruthy s.file_bytes then
    .ok ⟨s, [.noFileLoaded], false⟩
  else
    let sr := send_to_api o
    match s.df with
    | some df =>
      match reconcile sr.value df elapsed with
      | .ok (res, warned) => .ok ⟨{ s with results := res }, sr.errors, warned⟩
      | .error m => .error m
    | none =>
      if isSuccessData sr.value then .error "TypeError: len(None)"
      else .ok ⟨{ s with results := none }, sr.errors, false⟩

/-- pandas cell rendering of a prediction scalar when the `"Prediction"`
column is written out by `to_csv`. -/
def renderScalar : Json → String
  | .null => ""
  | .bool b => if b then "True" else "False"
  | .num q => toString q
  | .str s => s
  | .arr _ => "[...]"
  | .obj _ => "\x7b...\x7d"

/-- Minimal CSV quoting as pandas `to_csv` does by default
(`csv.QUOTE_MINIMAL`): quote a field containing the delimiter, a quote
character, or a line break, doubling embedded quotes. -/
def csvCell (s : String) : String :=
  if s.data.contains ',' || s.data.contains '"' || s.data.contains '\n'
      || s.data.contains '\r' then
    "\"" ++ s.replace "\"" "\"\"" ++ "\""
  else s

/-- One serialized CSV line. -/
def csvLine (cells : List String) : String :=
  String.intercalate "," (cells.map csvCell)

/-- pandas `df.to_csv(index=False)`: a header line of column names, then one
line per row, `\n`-terminated, and no index column. -/
def Table.to_csv (t : Table) : String :=
  String.intercalate "\n" (csvLine t.cols :: t.rows.map csvLine) ++ "\n"

/-- The `out_df["Prediction"] = r["predictions"]` assignment: a new column
`"Prediction"` appended after the existing columns, row `i` getting
prediction `i` (pandas requires the lengths to agree; callers pass a table
whose row count equals `preds.length`). -/
def Table.withPredictionColumn (t : Table) (preds : List Json) : Table :=
  ⟨t.cols ++ ["Prediction"],
   List.zipWith (fun row p => row ++ [renderScalar p]) t.rows preds⟩

/-- What the download button serves. -/
structure ExportArtifact where
  table : Table
  csv : String
  filename : String
deriving Repr

/-- Embedding of the export block of `main` (src/frontend/app.py lines
236-252): `n = len(r["predictions"])`, `out_df = df.head(n).copy()`,
`out_df["Prediction"] = r["predictions"]`, served as
`out_df.to_csv(index=False)` under `f"predictions_\x7bint(time.time())\x7d.csv"`.
`now` is `int(time.time())`, the current Unix timestamp in seconds. -/
def exportBuild (df : Table) (preds : List Json) (now : Nat) : ExportArtifact :=
  let n := preds.length
  let out := (df.head n).withPredictionColumn preds
  ⟨out, out.to_csv, "predictions_" ++ toString now ++ ".csv"⟩

/-- Observation of the reconciliation fragment: the written
`st.session_state.results` when the fragment did not raise. -/
def reconcileResults : Except String (Option Results × Bool) → Option Results
  | .ok (r, _) => r
  | .error _ => none

/-- Observation of the reconciliation fragment: whether the count-mismatch
`st.warning` fired, when the fragment did not raise. -/
def reconcileWarned : Except String (Option Results × Bool) → Option Bool
  | .ok (_, w) => some w
  | .error _ => none

/-- Helper: among two boolean-prefix witnesses of the same list, the shorter
one is a prefix of the longer one. -/
theorem isPrefixOf_of_isPrefixOf_of_length_le :
    ∀ (l a b : List Char), a.isPrefixOf l = true → b.isPrefixOf l = true →
      a.length ≤ b.length → a.isPrefixOf b = true := by
  intro l
  induction l with
  | nil =>
    intro a b ha _ _
    cases a with
    | nil => cases b <;> simp [List.isPrefixOf]
    | cons a0 as => simp [List.isPrefixOf] at ha
  | cons x xs ih =>
    intro a b ha hb hl
    cases a with
    | nil => simp [List.isPrefixOf]
    | cons a0 as =>
      cases b with
      | nil => simp at hl
      | cons b0 bs =>
        simp only [List.isPrefixOf, Bool.and_eq_true, beq_iff_eq] at ha hb ⊢
        refine ⟨ha.1.trans hb.1.symm, ?_⟩
        exact ih as bs ha.2 hb.2 (by simpa using hl)

/-- Helper: a filename ending in `".xlsx"` does not end in `".csv"`. -/
theorem not_csv_of_xlsx (s : String) (h : pyEndsWith s ".xlsx" = true) :
    pyEndsWith s ".csv" = false := by
  by_contra hc
  rw [Bool.not_eq_false] at hc
  have := isPrefixOf_of_isPrefixOf_of_length_le s.data.reverse
    (".csv".data.reverse) (".xlsx".data.reverse) hc h (by decide)
  simp [List.isPrefixOf] at this

/-- Helper: a filename ending in `".xls"` does not end in `".csv"`. -/
theorem not_csv_of_xls (s : String) (h : pyEndsWith s ".xls" = true) :
    pyEndsWith s ".csv" = false := by
  by_contra hc
  rw [Bool.not_eq_false] at hc
  have := isPrefixOf_of_isPrefixOf_of_length_le s.data.reverse
    (".csv".data.reverse) (".xls".data.reverse) hc h (by decide)
  simp [List.isPrefixOf] at this

/-- Helper: `send_to_api` either returns a parsed body with no error shown,
or returns `None` having shown exactly one error. -/
theorem send_to_api_shape (o : ExchangeOutcome) :
    (∃ data, send_to_api o = ⟨some data, []⟩) ∨
    ((send_to_api o).value = none ∧ ∃ e, (send_to_api o).errors = [e]) := by
  rcases o with msg | r
  · right; exact ⟨rfl, _, rfl⟩
  · unfold send_to_api
    by_cases hct : pyStartsWith r.contentType "application/json"
    · simp only [hct, if_true]
      cases hj : r.jsonBody with
      | error msg => right; exact ⟨rfl, _, rfl⟩
      | ok data =>
        by_cases hs : r.statusCode == 200
        · left; simp [hs]
        · right; simp [hs]
    · right; simp [hct]

/-! Concrete sample values reused by witnesses and counterexamples. -/

/-- A JSON error body whose `detail` field is present but the empty string. -/
def detailEmptyBody : Json := .obj [("detail", .str "")]

/-- A 400 JSON response carrying `detailEmptyBody`. -/
def r400 : HttpResponse := ⟨400, "application/json", "ignored", .ok detailEmptyBody⟩

/-- A 200 JSON body whose `status` is present but not `"success"`. -/
def failedStatusBody : Json := .obj [("status", .str "failed")]

/-- The exchange returning `failedStatusBody` with HTTP 200. -/
def failedStatusOutcome : ExchangeOutcome :=
  .response ⟨200, "application/json", "", .ok failedStatusBody⟩

/-- A one-row table, as after a successful load. -/
def sampleTable : Table := ⟨["Feature_1"], [["1.2"]]⟩

/-- A session in the `Loaded` state. -/
def loadedSession : Session := ⟨some [1, 2, 3], some sampleTable, none⟩

/-- C3: for every HTTP response whose content-type is not JSON, `send_to_api`
returns a `Failure` (no parsed result) whose detail carries the raw status
code and a body excerpt of at most 400 characters, regardless of the status
code. -/
theorem send_to_api_non_json_failure (r : HttpResponse)
    (h : pyStartsWith r.contentType "application/json" = false) :
    send_to_api (.response r)
      = ⟨none, [.unexpectedResponse r.statusCode (strTake r.text 400)]⟩ ∧
    (strTake r.text 400).length ≤ 400 := by
  constructor
  · simp [send_to_api, h]
  · show (r.text.data.take 400).length ≤ 400
    simp [List.length_take]

/-- Witness for C3 at a concrete non-JSON 500 response. -/
theorem send_to_api_non_json_failure_witness :
    send_to_api (.response ⟨500, "text/html", "Internal Server Error", .error "boom"⟩)
      = ⟨none, [.unexpectedResponse 500 (strTake "Internal Server Error" 400)]⟩ ∧
    (strTake "Internal Server Error" 400).length ≤ 400 :=
  send_to_api_non_json_failure ⟨500, "text/html", "Internal Server Error", .error "boom"⟩
    (by decide)

/-- C10: for every possible HTTP exchange outcome — including a response
whose content-type declares JSON but whose body fails to decode —
`send_to_api` returns either a parsed body or `None` and never lets an
exception escape (in the embedding it is a total function into
`SendResult`); every `None` return comes with an error message shown. -/
theorem send_to_api_total (o : ExchangeOutcome) :
    ((send_to_api o).value.isSome ∧ (send_to_api o).errors = []) ∨
    ((send_to_api o).value = none ∧ (send_to_api o).errors ≠ []) := by
  rcases send_to_api_shape o with ⟨data, h⟩ | ⟨hv, e, he⟩
  · left; rw [h]; exact ⟨rfl, rfl⟩
  · right; exact ⟨hv, by rw [he]; simp⟩

/-- Counterexample to C4 as stated: a 400 JSON response whose body has a
`detail` field that is present but falsy (the empty string). The claim says
the shown detail is then the field's value `""`; the code evaluates
`detail or data` and shows the whole body instead. -/
theorem api_error_detail_counterexample :
    send_to_api (.response r400) = ⟨none, [.apiError 400 detailEmptyBody]⟩ ∧
    Json.get detailEmptyBody "detail" = some (.str "") ∧
    StError.apiError 400 detailEmptyBody ≠ StError.apiError 400 (.str "") := by
  refine ⟨rfl, rfl, fun h => ?_⟩
  rw [StError.apiError.injEq] at h
  exact Json.noConfusion h.2

/-- C4 amended: for every JSON response with HTTP status ≠ 200, the client
returns `None` and shows `API Error <code>: <detail or data>` — the `detail`
field's value when it is present AND truthy, and the whole JSON body when
the field is absent or its value is falsy (Python `detail or data`). -/
theorem send_to_api_non_200_detail (r : HttpResponse) (data : Json)
    (hct : pyStartsWith r.contentType "application/json" = true)
    (hjson : r.jsonBody = .ok data)
    (hstatus : r.statusCode ≠ 200) :
    (send_to_api (.response r)).value = none ∧
    (send_to_api (.response r)).errors
      = [.apiError r.statusCode (pyOrJson (data.get "detail") data)] ∧
    (∀ v, data.get "detail" = some v → v.truthy = true →
        pyOrJson (data.get "detail") data = v) ∧
    (data.get "detail" = none → pyOrJson (data.get "detail") data = data) ∧
    (∀ v, data.get "detail" = some v → v.truthy = false →
        pyOrJson (data.get "detail") data = data) := by
  have hmain : send_to_api (.response r)
      = ⟨none, [.apiError r.statusCode (pyOrJson (data.get "detail") data)]⟩ := by
    simp [send_to_api, hct, hjson, hstatus]
  refine ⟨by rw [hmain], by rw [hmain], ?_, ?_, ?_⟩
  · intro v hv htr; rw [hv]; simp [pyOrJson, htr]
  · intro hv; rw [hv]; simp [pyOrJson]
  · intro v hv htr; rw [hv]; simp [pyOrJson, htr]

/-- Witness for C4's amended theorem at the concrete 400 response `r400`. -/
theorem send_to_api_non_200_detail_witness :
    (send_to_api (.response r400)).value = none ∧
    (send_to_api (.response r400)).errors
      = [.apiError r400.statusCode (pyOrJson (detailEmptyBody.get "detail") detailEmptyBody)] ∧
    (∀ v, detailEmptyBody.get "detail" = some v → v.truthy = true →
        pyOrJson (detailEmptyBody.get "detail") detailEmptyBody = v) ∧
    (detailEmptyBody.get "detail" = none →
        pyOrJson (detailEmptyBody.get "detail") detailEmptyBody = detailEmptyBody) ∧
    (∀ v, detailEmptyBody.get "detail" = some v → v.truthy = false →
        pyOrJson (detailEmptyBody.get "detail") detailEmptyBody = detailEmptyBody) :=
  send_to_api_non_200_detail r400 detailEmptyBody rfl rfl (by decide)

/-- C9: reconciliation is deterministic — on equal inputs (table, parsed
response, elapsed-time fallback) the reconciliation fragment produces equal
results; the embedding exposes every source it reads as one of these
inputs, so nothing else can influence the outcome. -/
theorem reconcile_deterministic (d1 d2 : Option Json) (t1 t2 : Table)
    (e1 e2 : Rat) (hd : d1 = d2) (ht : t1 = t2) (he : e1 = e2) :
    reconcile d1 t1 e1 = reconcile d2 t2 e2 := by
  rw [hd, ht, he]

/-- Witness for C9 at a concrete success response and table. -/
theorem reconcile_deterministic_witness :
    reconcile (some failedStatusBody) sampleTable 1
      = reconcile (some failedStatusBody) sampleTable 1 :=
  reconcile_deterministic (some failedStatusBody) (some failedStatusBody)
    sampleTable sampleTable 1 1 rfl rfl rfl

/-- A success body carrying three predictions and nothing else. -/
def successDataFields : List (String × Json) :=
  [("predictions", .arr [.num 1, .num 0, .num 1])]

/-- A 200 success response body with three predictions. -/
def successBody : Json :=
  .obj [("status", .str "success"), ("data", .obj successDataFields)]

/-- A two-row table. -/
def twoRowTable : Table := ⟨["Feature_1"], [["1.2"], ["2.1"]]⟩

/-- A success `data` object with every optional field present. -/
def fullDataFields : List (String × Json) :=
  [("predictions", .arr [.num 0, .num 1]),
   ("processing_time_seconds", .num 1),
   ("num_predictions", .num 7)]

/-- A success body around `fullDataFields`. -/
def fullBody : Json :=
  .obj [("status", .str "success"), ("data", .obj fullDataFields),
        ("message", .str "ok")]

/-- A success `data` object whose `processing_time_seconds` is present but
JSON `null`. -/
def nullProcFields : List (String × Json) :=
  [("predictions", .arr []), ("processing_time_seconds", .null)]

/-- A success body around `nullProcFields`. -/
def nullProcBody : Json :=
  .obj [("status", .str "success"), ("data", .obj nullProcFields)]

/-- C1: for every loaded table with `R` rows and every success response
whose prediction list has length `P`, reconciliation keeps exactly the
first `min(P, R)` predictions, the mismatch warning (the spec's
`truncated` flag) fires exactly when `P ≠ R`, and a count mismatch is never
a hard failure — the fragment still produces a results value. -/
theorem reconcile_truncates_to_min (data : Json) (df : Table) (elapsed : Rat)
    (preds : List Json) (dflds : List (String × Json))
    (hsucc : isSuccessData (some data) = true)
    (hdata : data.get "data" = some (.obj dflds))
    (hpreds : lookupField dflds "predictions" = some (.arr preds)) :
    (reconcileResults (reconcile (some data) df elapsed)).map Results.predictions
      = some (preds.take (min preds.length df.len)) ∧
    reconcileWarned (reconcile (some data) df elapsed)
      = some (preds.length != df.len) := by
  simp only [reconcile, hsucc, if_true]
  rw [hdata]
  simp only [Json.get]
  rw [hpreds]
  exact ⟨rfl, rfl⟩

/-- Witness for C1: three predictions against a two-row table keep the
first two predictions and fire the mismatch warning. -/
theorem reconcile_truncates_to_min_witness :
    (reconcileResults (reconcile (some successBody) twoRowTable 0)).map Results.predictions
      = some [Json.num 1, Json.num 0] ∧
    reconcileWarned (reconcile (some successBody) twoRowTable 0) = some true :=
  reconcile_truncates_to_min successBody twoRowTable 0
    [.num 1, .num 0, .num 1] successDataFields (by decide) rfl rfl

/-- Counterexample to C5 as stated: a success response whose
`processing_time_seconds` field is present with value JSON `null`. The
claim says `processing_time` then equals the field's value; the code tests
`proc is not None` (JSON `null` parses to Python `None`) and stores the
elapsed-time fallback `5` instead. -/
theorem processing_time_null_counterexample :
    (reconcileResults (reconcile (some nullProcBody) ⟨["a"], []⟩ 5)).map Results.processing_time
      = some (.num 5) ∧
    lookupField nullProcFields "processing_time_seconds" = some .null ∧
    Json.num 5 ≠ Json.null :=
  ⟨rfl, rfl, fun h => Json.noConfusion h⟩

/-- C5 amended: in every reconciled result, `num_predictions` equals the
response's `num_predictions` field whenever that field is present (even as
JSON `null`) and defaults to `n = min(P, R)` when absent, while
`processing_time` equals the response's `processing_time_seconds` field
only when that field is present AND non-null, defaulting to the
caller-supplied elapsed time when the field is absent or `null`. -/
theorem reconcile_field_defaults (data : Json) (df : Table) (elapsed : Rat)
    (preds : List Json) (dflds : List (String × Json))
    (hsucc : isSuccessData (some data) = true)
    (hdata : data.get "data" = some (.obj dflds))
    (hpreds : lookupField dflds "predictions" = some (.arr preds)) :
    (∀ v, lookupField dflds "num_predictions" = some v →
        (reconcileResults (reconcile (some data) df elapsed)).map Results.num_predictions
          = some v) ∧
    (lookupField dflds "num_predictions" = none →
        (reconcileResults (reconcile (some data) df elapsed)).map Results.num_predictions
          = some (.num (min preds.length df.len : Nat))) ∧
    (∀ v, lookupField dflds "processing_time_seconds" = some v → v ≠ .null →
        (reconcileResults (reconcile (some data) df elapsed)).map Results.processing_time
          = some v) ∧
    ((lookupField dflds "processing_time_seconds" = none ∨
        lookupField dflds "processing_time_seconds" = some .null) →
        (reconcileResults (reconcile (some data) df elapsed)).map Results.processing_time
          = some (.num elapsed)) := by
  simp only [reconcile, hsucc, if_true]
  rw [hdata]
  simp only [Json.get]
  rw [hpreds]
  refine ⟨?_, ?_, ?_, ?_⟩
  · intro v hv; rw [hv]; rfl
  · intro hv; rw [hv]; rfl
  · intro v hv hne; rw [hv]
    cases v with
    | null => exact absurd rfl hne
    | bool b => rfl
    | num q => rfl
    | str s => rfl
    | arr l => rfl
    | obj l => rfl
  · rintro (hv | hv) <;> (rw [hv]; rfl)

/-- Witness for C5's amended theorem: both optional fields present and
non-null are taken from the response, not the fallback. -/
theorem reconcile_field_defaults_witness :
    (reconcileResults (reconcile (some fullBody) twoRowTable 9)).map Results.num_predictions
      = some (Json.num 7) ∧
    (reconcileResults (reconcile (some fullBody) twoRowTable 9)).map Results.processing_time
      = some (Json.num 1) := by
  have h := reconcile_field_defaults fullBody twoRowTable 9
    [.num 0, .num 1] fullDataFields (by decide) rfl rfl
  exact ⟨h.1 _ rfl, h.2.2.1 _ rfl (fun hnull => Json.noConfusion hnull)⟩

/-- Counterexample to C2 as stated: a 200 JSON response whose `status` is
present but `"failed"` is an error outcome of the pipeline (it is not
treated as success), yet the attempt emits no message at all — the handler
silently sets `st.session_state.results = None`. -/
theorem silent_unsuccessful_status_counterexample :
    predictAction loadedSession failedStatusOutcome 0
      = .ok ⟨⟨some [1, 2, 3], some sampleTable, none⟩, [], false⟩ ∧
    isSuccessData (send_to_api failedStatusOutcome).value = false :=
  ⟨rfl, rfl⟩

/-- C2 amended: every prediction attempt whose HTTP exchange fails
(transport error, non-JSON response, undecodable JSON body, or non-200
status — exactly the cases where `send_to_api` returns `None`) shows a
human-readable error message and clears the results; but a 200 JSON
response whose `status` is absent or not `"success"` is treated as a
failure silently: results are cleared and no message is shown. -/
theorem predict_error_reporting (s : Session) (o : ExchangeOutcome) (e : Rat) (df : Table)
    (hb : bytesTruthy s.file_bytes = true) (hdf : s.df = some df) :
    ((send_to_api o).value = none →
       predictAction s o e
         = .ok ⟨{ s with results := none }, (send_to_api o).errors, false⟩ ∧
       (send_to_api o).errors ≠ []) ∧
    (∀ data, (send_to_api o).value = some data → isSuccessData (some data) = false →
       predictAction s o e = .ok ⟨{ s with results := none }, [], false⟩) := by
  constructor
  · intro hv
    have hrec : reconcile (send_to_api o).value df e = .ok (none, false) := by
      rw [hv]; rfl
    constructor
    · simp only [predictAction, hb, Bool.not_true, Bool.false_eq_true, if_false, hdf]
      rw [hrec]
    · rcases send_to_api_shape o with ⟨d0, h0⟩ | ⟨_, e0, he0⟩
      · rw [h0] at hv; exact absurd hv (by simp)
      · rw [he0]; simp
  · intro data hv hsucc
    rcases send_to_api_shape o with ⟨d0, h0⟩ | ⟨hv0, _, _⟩
    · have hd0 : d0 = data := by rw [h0] at hv; exact Option.some.inj hv
      subst hd0
      have hrec : reconcile (send_to_api o).value df e = .ok (none, false) := by
        rw [hv]
        simp only [reconcile, hsucc, Bool.false_eq_true, if_false]
      simp only [predictAction, hb, Bool.not_true, Bool.false_eq_true, if_false, hdf]
      rw [hrec, h0]
    · rw [hv0] at hv; exact absurd hv (by simp)

/-- Witness for C2's amended theorem: a refused connection shows the
network-error message and clears the results. -/
theorem predict_error_reporting_witness :
    predictAction loadedSession (.transportError "connection refused") 0
      = .ok ⟨⟨some [1, 2, 3], some sampleTable, none⟩,
             [.networkError "connection refused"], false⟩ ∧
    [StError.networkError "connection refused"] ≠ ([] : List StError) := by
  have h := (predict_error_reporting loadedSession (.transportError "connection refused")
      0 sampleTable (by decide) rfl).1 rfl
  exact ⟨h.1, h.2⟩

/-- C8: for every session in the `Loaded` state, a failed prediction
attempt (any outcome that does not pass the success-shape check: network
error, non-JSON response, non-200 status, or an unsuccessful 200 body)
clears the stored results while leaving the loaded table and the stored
raw bytes exactly as they were. -/
theorem failed_prediction_preserves_table (s : Session) (o : ExchangeOutcome) (e : Rat)
    (df : Table) (hb : bytesTruthy s.file_bytes = true) (hdf : s.df = some df)
    (hfail : isSuccessData (send_to_api o).value = false) :
    predictAction s o e
      = .ok ⟨⟨s.file_bytes, s.df, none⟩, (send_to_api o).errors, false⟩ := by
  have hrec : reconcile (send_to_api o).value df e = .ok (none, false) := by
    cases hv : (send_to_api o).value with
    | none => rfl
    | some data =>
      rw [hv] at hfail
      simp only [reconcile, hfail, Bool.false_eq_true, if_false]
  simp only [predictAction, hb, Bool.not_true, Bool.false_eq_true, if_false, hdf]
  rw [hrec]

/-- Witness for C8: a non-JSON 500 response clears the results and keeps
the loaded table and bytes unchanged. -/
theorem failed_prediction_preserves_table_witness :
    predictAction loadedSession (.response ⟨500, "text/plain", "oops", .error "x"⟩) 2
      = .ok ⟨⟨some [1, 2, 3], some sampleTable, none⟩,
             [.unexpectedResponse 500 (strTake "oops" 400)], false⟩ :=
  failed_prediction_preserves_table loadedSession
    (.response ⟨500, "text/plain", "oops", .error "x"⟩) 2 sampleTable
    (by decide) rfl (by decide)

/-- C6: `load_df_from_bytes` routes a filename ending in `.csv` to the
delimited-text parser and one ending in `.xlsx`/`.xls` to the spreadsheet
parser, rejects any other filename with the unsupported-format error and no
table, and converts a parser exception into an explicit `(None, LoadError)`
outcome carrying the underlying message instead of raising. -/
theorem load_df_parser_selection (readCsv readExcel : List Nat → Except String Table)
    (b : List Nat) (fn : String) :
    (pyEndsWith (pyLower fn) ".csv" = true →
       (∀ t, readCsv b = .ok t →
          load_df_from_bytes readCsv readExcel b fn = (some t, [])) ∧
       (∀ m, readCsv b = .error m →
          load_df_from_bytes readCsv readExcel b fn = (none, [.loadError m]))) ∧
    ((pyEndsWith (pyLower fn) ".xlsx" = true ∨ pyEndsWith (pyLower fn) ".xls" = true) →
       (∀ t, readExcel b = .ok t →
          load_df_from_bytes readCsv readExcel b fn = (some t, [])) ∧
       (∀ m, readExcel b = .error m →
          load_df_from_bytes readCsv readExcel b fn = (none, [.loadError m]))) ∧
    (pyEndsWith (pyLower fn) ".csv" = false → pyEndsWith (pyLower fn) ".xlsx" = false →
       pyEndsWith (pyLower fn) ".xls" = false →
       load_df_from_bytes readCsv readExcel b fn = (none, [.unsupportedFormat])) := by
  refine ⟨?_, ?_, ?_⟩
  · intro hcsv
    constructor
    · intro t ht; simp [load_df_from_bytes, hcsv, ht]
    · intro m hm; simp [load_df_from_bytes, hcsv, hm]
  · intro hx
    have hncsv : pyEndsWith (pyLower fn) ".csv" = false := by
      rcases hx with h | h
      · exact not_csv_of_xlsx _ h
      · exact not_csv_of_xls _ h
    have hor : (pyEndsWith (pyLower fn) ".xlsx" || pyEndsWith (pyLower fn) ".xls") = true := by
      rcases hx with h | h <;> simp [h]
    constructor
    · intro t ht; simp [load_df_from_bytes, hncsv, hor, ht]
    · intro m hm; simp [load_df_from_bytes, hncsv, hor, hm]
  · intro h1 h2 h3
    simp [load_df_from_bytes, h1, h2, h3]

/-- Witness for C6: a parsed upper-case CSV name, a corrupt workbook, and
an unsupported text file. -/
theorem load_df_parser_selection_witness :
    load_df_from_bytes (fun _ => .ok sampleTable) (fun _ => .error "bad workbook")
        [0] "Data.CSV" = (some sampleTable, []) ∧
    load_df_from_bytes (fun _ => .ok sampleTable) (fun _ => .error "bad workbook")
        [0] "book.xlsx" = (none, [.loadError "bad workbook"]) ∧
    load_df_from_bytes (fun _ => .ok sampleTable) (fun _ => .error "bad workbook")
        [0] "notes.txt" = (none, [.unsupportedFormat]) := by
  refine ⟨?_, ?_, ?_⟩
  · exact ((load_df_parser_selection (fun _ => .ok sampleTable)
      (fun _ => .error "bad workbook") [0] "Data.CSV").1 (by decide)).1 sampleTable rfl
  · exact ((load_df_parser_selection (fun _ => .ok sampleTable)
      (fun _ => .error "bad workbook") [0] "book.xlsx").2.1
      (Or.inl (by decide))).2 "bad workbook" rfl
  · exact (load_df_parser_selection (fun _ => .ok sampleTable)
      (fun _ => .error "bad workbook") [0] "notes.txt").2.2
      (by decide) (by decide) (by decide)

/-- C7: the export builder takes exactly the first `k = len(predictions)`
rows of the table in their original order, appends one `"Prediction"`
column aligning prediction `i` with row `i`, serializes with a header row
and no index column, and names the file `predictions_<epoch-seconds>.csv`
from the current Unix timestamp. -/
theorem export_builder_spec (df : Table) (preds : List Json) (now : Nat)
    (hk : preds.length ≤ df.len) :
    (exportBuild df preds now).table.cols = df.cols ++ ["Prediction"] ∧
    (exportBuild df preds now).table.rows
      = List.zipWith (fun r p => r ++ [renderScalar p]) (df.rows.take preds.length) preds ∧
    (exportBuild df preds now).table.rows.length = preds.length ∧
    (exportBuild df preds now).csv
      = String.intercalate "\n"
          (csvLine (df.cols ++ ["Prediction"])
            :: (exportBuild df preds now).table.rows.map csvLine) ++ "\n" ∧
    (exportBuild df preds now).filename = "predictions_" ++ toString now ++ ".csv" := by
  refine ⟨rfl, rfl, ?_, rfl, rfl⟩
  simp only [exportBuild, Table.head, Table.withPredictionColumn, List.length_zipWith,
    List.length_take, Table.len] at hk ⊢
  omega

/-- Witness for C7: one prediction over a two-row table exports one
augmented row under the timestamped name. -/
theorem export_builder_spec_witness :
    (exportBuild twoRowTable [.num 1] 1700000000).table.cols
      = ["Feature_1"] ++ ["Prediction"] ∧
    (exportBuild twoRowTable [.num 1] 1700000000).table.rows
      = List.zipWith (fun r p => r ++ [renderScalar p])
          ([["1.2"], ["2.1"]].take 1) [Json.num 1] ∧
    (exportBuild twoRowTable [.num 1] 1700000000).table.rows.length = 1 ∧
    (exportBuild twoRowTable [.num 1] 1700000000).csv
      = String.intercalate "\n"
          (csvLine (["Feature_1"] ++ ["Prediction"])
            :: (exportBuild twoRowTable [.num 1] 1700000000).table.rows.map csvLine) ++ "\n" ∧
    (exportBuild twoRowTable [.num 1] 1700000000).filename
      = "predictions_" ++ toString 1700000000 ++ ".csv" := by
  have h := export_builder_spec twoRowTable [.num 1] 1700000000 (by decide)
  exact h

end App
